import Mathlib

/-!
Verification of the encoding/decoding core of the `python-miio` repository
(`miio/airconditioningcompanion.py`, `miio/powerstrip.py`,
`mirobo/airpurifier.py`) against its natural-language specification.

The Python code is shallowly embedded: strings are Lean `String`s (lists of
characters), Python integers are `Int`, Python `None` is `Option.none`, and a
raised exception is an explicit `PyResult.exn` value carrying the exception
class name.  `str.replace` is modelled by a fuel-indexed, leftmost,
non-overlapping list replacement that matches CPython semantics for non-empty
patterns.
-/

namespace Miio

/-- Value universe for the few Python values that cross type boundaries here:
integers and strings.  Needed because the source compares an `int` with a
`str` (`AirConditioningCompanionStatus.led`), and Python `==` across these
types is always `False`. -/
inductive PyVal : Type
  | int : Int → PyVal
  | str : String → PyVal
  deriving DecidableEq, Repr

/-- Python `==` restricted to `int`/`str` operands: equal-type operands
compare by value, mixed-type `int == str` is always `False` (neither type
implements a cross-type `__eq__`). -/
def pyEq : PyVal → PyVal → Bool
  | .int a, .int b => a == b
  | .str a, .str b => a == b
  | _, _ => false

/-- Leftmost non-overlapping replacement on character lists, fuel-indexed so
that it is structurally recursive (and hence kernel-computable).  With
`fuel ≥ l.length` and a non-empty pattern this is exactly CPython
`str.replace`. -/
def pyReplaceF : Nat → List Char → List Char → List Char → List Char
  | 0, l, _, _ => l
  | _ + 1, [], _, _ => []
  | f + 1, c :: cs, p, r =>
    if p.isPrefixOf (c :: cs) then r ++ pyReplaceF f ((c :: cs).drop p.length) p r
    else c :: pyReplaceF f cs p r

/-- Python `s.replace(p, r)` for non-empty `p`, on character lists. -/
def pyReplace (l p r : List Char) : List Char := pyReplaceF l.length l p r

/-- Python `s.replace(p, r)` on strings. -/
def strReplace (s p r : String) : String := ⟨pyReplace s.data p.data r.data⟩

/-- Python slice `s[a:b]` for `0 ≤ a ≤ b` (clamps at the string's end,
never fails). -/
def pySlice (s : String) (a b : Nat) : String := ⟨(s.data.drop a).take (b - a)⟩

/-- Python slice `s[-1:]`: the last character, or `""` when `s` is empty. -/
def pyLastSlice (s : String) : String := ⟨s.data.drop (s.data.length - 1)⟩

/-- Lookup in a Python `dict` built from an association list (later bindings
shadow earlier ones, as in a `dict` literal or `dict(zip(...))`);
`none` = key absent. -/
def pyDictGet {α : Type} (pairs : List (String × α)) (k : String) : Option α :=
  match pairs with
  | [] => none
  | (k₀, v₀) :: rest =>
    match pyDictGet rest k with
    | some v => some v
    | none => if k = k₀ then some v₀ else none

/-- Code points of the characters Python's `str.isspace` accepts; `int()`
strips these from both ends of its string argument before parsing. -/
def pyWsCodes : List Nat :=
  [9, 10, 11, 12, 13, 28, 29, 30, 31, 32, 133, 160, 5760, 8192, 8193, 8194,
   8195, 8196, 8197, 8198, 8199, 8200, 8201, 8202, 8232, 8233, 8239, 8287,
   12288]

/-- Python whitespace test for one character. -/
def isPyWs (c : Char) : Bool := pyWsCodes.contains c.toNat

/-- First code point of every run of Unicode decimal digits (category `Nd`);
each run is ten consecutive code points carrying the values 0–9, and
`int()` accepts exactly these characters as digits (plus ASCII letters for
digit values of 10 and above). -/
def ndZeroCodes : List Nat :=
  [48, 1632, 1776, 1984, 2406, 2534, 2662, 2790, 2918, 3046, 3174, 3302,
   3430, 3558, 3664, 3792, 3872, 4160, 4240, 6112, 6160, 6470, 6608, 6784,
   6800, 6992, 7088, 7232, 7248, 42528, 43216, 43264, 43472, 43504, 43600,
   44016, 65296, 66720, 68912, 69734, 69872, 69942, 70096, 70384, 70736,
   70864, 71248, 71360, 71472, 71904, 72016, 72784, 73040, 73120, 92768,
   92864, 93008, 120782, 120792, 120802, 120812, 120822, 123200, 123632,
   125264, 130032]

/-- Decimal value of a Unicode decimal digit, `none` for any other
character. -/
def decDigitVal (c : Char) : Option Nat :=
  match ndZeroCodes.find? (fun z => decide (z ≤ c.toNat ∧ c.toNat < z + 10)) with
  | some z => some (c.toNat - z)
  | none => none

/-- Digit value of `c` in `base`: a Unicode decimal digit whose value is
below the base, or an ASCII letter for the values 10 and above. -/
def digitValInBase (base : Nat) (c : Char) : Option Nat :=
  match decDigitVal c with
  | some d => if d < base then some d else none
  | none =>
    if 'a' ≤ c ∧ c ≤ 'z' then
      if c.toNat - 87 < base then some (c.toNat - 87) else none
    else if 'A' ≤ c ∧ c ≤ 'Z' then
      if c.toNat - 55 < base then some (c.toNat - 55) else none
    else none

/-- The digits after the first one: single underscores are permitted between
digits only. -/
def digitsTail (base : Nat) : Nat → List Char → Option Nat
  | acc, [] => some acc
  | _, ['_'] => none
  | acc, '_' :: c :: rest =>
    match digitValInBase base c with
    | some d => digitsTail base (acc * base + d) rest
    | none => none
  | acc, c :: rest =>
    match digitValInBase base c with
    | some d => digitsTail base (acc * base + d) rest
    | none => none

/-- A digit cluster: nonempty and starting with a digit. -/
def digitSeq (base : Nat) : List Char → Option Nat
  | [] => none
  | c :: rest =>
    match digitValInBase base c with
    | some d => digitsTail base d rest
    | none => none

/-- After a `0x`/`0X` prefix one underscore may directly follow before the
digits. -/
def afterHexPfx : List Char → Option Nat
  | '_' :: rest => digitSeq 16 rest
  | rest => digitSeq 16 rest

/-- The part after the optional sign: for base 16 an optional `0x`/`0X`
prefix, then the digit cluster. -/
def numPart (base : Nat) (l : List Char) : Option Nat :=
  if base = 16 then
    match l with
    | '0' :: 'x' :: rest => afterHexPfx rest
    | '0' :: 'X' :: rest => afterHexPfx rest
    | _ => digitSeq 16 l
  else digitSeq base l

/-- Strip Python whitespace from both ends. -/
def stripPyWs (l : List Char) : List Char :=
  ((l.dropWhile isPyWs).reverse.dropWhile isPyWs).reverse

/-- Python `int(s, base)` on a string argument, for the bases 10 and 16 the
source uses: surrounding whitespace stripped, one optional sign, an
optional `0x`/`0X` prefix for base 16, Unicode decimal digits (ASCII
letters for values from 10), single underscores between digits; `none`
models the raised `ValueError`.  (CPython's length limit on decimal
conversion is not modelled; the decoder only parses one- and two-character
slices.) -/
def pyIntBase (base : Nat) (s : String) : Option Int :=
  match stripPyWs s.data with
  | '-' :: rest => (numPart base rest).map fun n => -(n : Int)
  | '+' :: rest => (numPart base rest).map fun n => (n : Int)
  | l => (numPart base l).map fun n => (n : Int)

/-- Python `int(s)`. -/
def pyIntDec (s : String) : Option Int := pyIntBase 10 s

/-- Python `int(s, 16)`. -/
def pyIntHex (s : String) : Option Int := pyIntBase 16 s

/-- Uppercase hexadecimal digit for `n < 16`. -/
def hexDigit (n : Nat) : Char :=
  if n < 10 then Char.ofNat (48 + n) else Char.ofNat (55 + n)

/-- Digits of `n` in base 16, most significant first (fuel-indexed). -/
def natHexDigits : Nat → Nat → List Char
  | 0, _ => []
  | f + 1, n =>
    if n < 16 then [hexDigit n]
    else natHexDigits f (n / 16) ++ [hexDigit (n % 16)]

/-- Uppercase hexadecimal rendering of a natural number. -/
def natToHex (n : Nat) : String := ⟨natHexDigits (n + 1) n⟩

/-- Python `format(i, 'X')`: uppercase hexadecimal, `-` sign for negatives,
no prefix. -/
def intFormatX (i : Int) : String :=
  if i < 0 then "-" ++ natToHex (-i).toNat else natToHex i.toNat

/-- Python `str(i)` for an `int`. -/
def intStr (i : Int) : String := toString i

/-! ## `miio/airconditioningcompanion.py` -/

/-- `class OperationMode(enum.Enum)`. -/
inductive OperationMode : Type
  | Heat | Cool | Auto | Dehumidify | Ventilate
  deriving DecidableEq, Repr

/-- The `.value` of each `OperationMode` member. -/
def OperationMode.value : OperationMode → Int
  | .Heat => 0
  | .Cool => 1
  | .Auto => 2
  | .Dehumidify => 3
  | .Ventilate => 4

/-- `OperationMode(i)`: member with value `i`, `none` models the
`ValueError` Python raises for any other value. -/
def OperationMode.fromValue (i : Int) : Option OperationMode :=
  if i = 0 then some .Heat
  else if i = 1 then some .Cool
  else if i = 2 then some .Auto
  else if i = 3 then some .Dehumidify
  else if i = 4 then some .Ventilate
  else none

/-- `class FanSpeed(enum.Enum)`. -/
inductive FanSpeed : Type
  | Low | Medium | High | Auto
  deriving DecidableEq, Repr

/-- The `.value` of each `FanSpeed` member. -/
def FanSpeed.value : FanSpeed → Int
  | .Low => 0
  | .Medium => 1
  | .High => 2
  | .Auto => 3

/-- `FanSpeed(i)`. -/
def FanSpeed.fromValue (i : Int) : Option FanSpeed :=
  if i = 0 then some .Low
  else if i = 1 then some .Medium
  else if i = 2 then some .High
  else if i = 3 then some .Auto
  else none

/-- `class SwingMode(enum.Enum)` (note: `On = 0`, `Off = 1`). -/
inductive SwingMode : Type
  | On | Off
  deriving DecidableEq, Repr

/-- The `.value` of each `SwingMode` member. -/
def SwingMode.value : SwingMode → Int
  | .On => 0
  | .Off => 1

/-- `SwingMode(i)`. -/
def SwingMode.fromValue (i : Int) : Option SwingMode :=
  if i = 0 then some .On else if i = 1 then some .Off else none

/-- `class Power(enum.Enum)` (`On = 1`, `Off = 0`). -/
inductive Power : Type
  | On | Off
  deriving DecidableEq, Repr

/-- The `.value` of each `Power` member. -/
def Power.value : Power → Int
  | .On => 1
  | .Off => 0

/-- `class Led(enum.Enum)`: the wire values are the *strings*
`'0'` (On) and `'a'` (Off). -/
inductive Led : Type
  | On | Off
  deriving DecidableEq, Repr

/-- The `.value` of each `Led` member — a string, not an integer. -/
def Led.value : Led → String
  | .On => "0"
  | .Off => "a"

/-- One entry of `DEVICE_COMMAND_TEMPLATES`: the `'off'` key is optional. -/
structure Template : Type where
  deviceType : String
  base : String
  off : Option String
  deriving DecidableEq, Repr

/-- `DEVICE_COMMAND_TEMPLATES['fallback']`. -/
def fallbackTemplate : Template :=
  ⟨"generic", "[po][mo][wi][sw][tt][li]", none⟩

/-- `DEVICE_COMMAND_TEMPLATES`, as the association list underlying the dict
literal (same key order as the source). -/
def DEVICE_COMMAND_TEMPLATES : List (String × Template) :=
  [("fallback", fallbackTemplate),
   ("0100010727",
    ⟨"gree_2",
     "[po][mo][wi][sw][tt]1100190[tt1]205002102000[tt7]0190[tt1]207002000000[tt4]",
     some "01011101004000205002112000D04000207002000000A0"⟩),
   ("0100004795", ⟨"gree_8", "[po][mo][wi][sw][tt][li]10009090000500", none⟩),
   ("0180333331", ⟨"haier_1", "[po][mo][wi][sw][tt]1", none⟩),
   ("0180666661", ⟨"aux_1", "[po][mo][wi][sw][tt]1", none⟩),
   ("0180777771", ⟨"chigo_1", "[po][mo][wi][sw][tt]1", none⟩)]

/-! ### Positional status decoder (`AirConditioningCompanionStatus`)

The record element `self.data[1]` is modelled as `Option String`
(`none` = Python `None`).  An accessor result is a `PyResult`:
`ok v` = the accessor returns `v`, `exn name` = it raises an exception of
class `name`.  Subscripting `None` raises `TypeError`; a failed `int(...)`
parse or a failed enum conversion raises `ValueError`.  Only the four
accessors written with `try/except TypeError` in the source catch the
former. -/

/-- Result of evaluating a Python property: a value or a raised exception
(identified by its class name). -/
inductive PyResult (α : Type) : Type
  | ok : α → PyResult α
  | exn : String → PyResult α
  deriving DecidableEq, Repr

/-- `AirConditioningCompanionStatus.power` (no `try` in the source):
`'on' if (int(self.data[1][2:3]) == Power.On.value) else 'off'`. -/
def acPower (data1 : Option String) : PyResult String :=
  match data1 with
  | none => .exn "TypeError"
  | some s =>
    match pyIntDec (pySlice s 2 3) with
    | none => .exn "ValueError"
    | some n => .ok (if pyEq (.int n) (.int Power.On.value) then "on" else "off")

/-- `AirConditioningCompanionStatus.is_on`: `self.power == 'on'`. -/
def acIsOn (data1 : Option String) : PyResult Bool :=
  match acPower data1 with
  | .ok p => .ok (p == "on")
  | .exn e => .exn e

/-- `AirConditioningCompanionStatus.led` (no `try` in the source):
`'on' if (int(self.data[1][8:9]) == Led.On.value) else 'off'` — note the
comparison of an `int` with the string `Led.On.value`. -/
def acLed (data1 : Option String) : PyResult String :=
  match data1 with
  | none => .exn "TypeError"
  | some s =>
    match pyIntDec (pySlice s 8 9) with
    | none => .exn "ValueError"
    | some n => .ok (if pyEq (.int n) (.str Led.On.value) then "on" else "off")

/-- `AirConditioningCompanionStatus.target_temperature`:
`int(self.data[1][6:8], 16)` under `try/except TypeError`. -/
def acTargetTemperature (data1 : Option String) : PyResult (Option Int) :=
  match data1 with
  | none => .ok none
  | some s =>
    match pyIntHex (pySlice s 6 8) with
    | none => .exn "ValueError"
    | some n => .ok (some n)

/-- `AirConditioningCompanionStatus.swing_mode`:
`SwingMode(int(self.data[1][5:6]))` under `try/except TypeError`. -/
def acSwingMode (data1 : Option String) : PyResult (Option SwingMode) :=
  match data1 with
  | none => .ok none
  | some s =>
    match pyIntDec (pySlice s 5 6) with
    | none => .exn "ValueError"
    | some n =>
      match SwingMode.fromValue n with
      | none => .exn "ValueError"
      | some m => .ok (some m)

/-- `AirConditioningCompanionStatus.fan_speed`:
`FanSpeed(int(self.data[1][4:5]))` under `try/except TypeError`. -/
def acFanSpeed (data1 : Option String) : PyResult (Option FanSpeed) :=
  match data1 with
  | none => .ok none
  | some s =>
    match pyIntDec (pySlice s 4 5) with
    | none => .exn "ValueError"
    | some n =>
      match FanSpeed.fromValue n with
      | none => .exn "ValueError"
      | some m => .ok (some m)

/-- `AirConditioningCompanionStatus.mode`:
`OperationMode(int(self.data[1][3:4]))` under `try/except TypeError`. -/
def acMode (data1 : Option String) : PyResult (Option OperationMode) :=
  match data1 with
  | none => .ok none
  | some s =>
    match pyIntDec (pySlice s 3 4) with
    | none => .exn "ValueError"
    | some n =>
      match OperationMode.fromValue n with
      | none => .exn "ValueError"
      | some m => .ok (some m)

/-! ### Configuration encoder (`AirConditioningCompanion.send_configuration`) -/

/-- `model[0:2] + model[8:16]` (line 272). -/
def derivedPfx (model : String) : String := pySlice model 0 2 ++ pySlice model 8 16

/-- `model[-1:]` (line 273). -/
def modelSuffix (model : String) : String := pyLastSlice model

/-- The temperature-offset digit: `format((K + target_temperature - 17) % 16, 'X')`
(lines 294–301, with `K ∈ {1, 4, 7}`).  `Int.emod` agrees with Python `%`
for the positive modulus 16. -/
def tempOffsetDigit (K t : Int) : String := intFormatX ((K + t - 17) % 16)

/-- Lines 287–303 of the source: the marker-substitution pipeline applied to
`configuration` (already prefixed), in source order, without the final
suffix. -/
def applySubstitutions (s : String) (power : Power) (mode : OperationMode)
    (t : Int) (fan : FanSpeed) (swing : SwingMode) (led : Led) : String :=
  let c1 := strReplace s "[po]" (intStr power.value)
  let c2 := strReplace c1 "[mo]" (intStr mode.value)
  let c3 := strReplace c2 "[wi]" (intStr fan.value)
  let c4 := strReplace c3 "[sw]" (intStr swing.value)
  let c5 := strReplace c4 "[tt]" (intFormatX t)
  let c6 := strReplace c5 "[li]" led.value
  let c7 := strReplace c6 "[tt1]" (tempOffsetDigit 1 t)
  let c8 := strReplace c7 "[tt4]" (tempOffsetDigit 4 t)
  strReplace c8 "[tt7]" (tempOffsetDigit 7 t)

/-- The template base used for a given derived prefix (lines 281–285):
the registered entry's `base` if the prefix is a key, else the
`fallback` entry's `base`. -/
def baseFor (pfx : String) : String :=
  match pyDictGet DEVICE_COMMAND_TEMPLATES pfx with
  | some e => e.base
  | none => fallbackTemplate.base

/-- The command string argument of the `send_command` call issued by
`AirConditioningCompanion.send_configuration` (lines 267–305).  The guard of
the static-off shortcut (lines 276–279) is
`power is Power.Off and prefix in DEVICE_COMMAND_TEMPLATES and
'off' in DEVICE_COMMAND_TEMPLATES[prefix]`. -/
def sendConfiguration (model : String) (power : Power) (mode : OperationMode)
    (t : Int) (fan : FanSpeed) (swing : SwingMode) (led : Led) : String :=
  let pfx := derivedPfx model
  let sfx := modelSuffix model
  match (if power = Power.Off
         then (pyDictGet DEVICE_COMMAND_TEMPLATES pfx).bind Template.off
         else none) with
  | some offCmd => pfx ++ offCmd
  | none => applySubstitutions (pfx ++ baseFor pfx) power mode t fan swing led ++ sfx

/-! ## `miio/powerstrip.py` -/

/-- An RPC invocation handed to the transport:
`self.send(method, params)`. -/
structure RpcCall : Type where
  method : String
  params : List PyVal
  deriving DecidableEq, Repr

/-- The property names `PowerStrip.status` requests (lines 151–153). -/
def psProperties : List String :=
  ["power", "temperature", "current", "mode",
   "power_consume_rate", "wifi_led", "power_price",
   "voltage", "power_factor", "elec_leakage"]

/-- The status data built by `PowerStrip.status` (line 168):
`defaultdict(lambda: None, zip(properties, values))` — a missing key yields
the default `None`, it never raises. -/
def psStatusData (values : List String) (k : String) : Option String :=
  pyDictGet (psProperties.zip values) k

/-- `PowerStripStatus.power`: `self.data["power"]` (may be the defaultdict's
`None`, hence `Option`). -/
def psPower (values : List String) : Option String := psStatusData values "power"

/-- `PowerStripStatus.temperature`: `self.data["temperature"]`. -/
def psTemperature (values : List String) : Option String :=
  psStatusData values "temperature"

/-- `PowerStrip.set_power_price` (lines 213–218), as the list of RPC calls it
performs paired with the raised exception, if any (`none` = returns
normally).  The range check precedes the `send`, so the error case performs
no call. -/
def setPowerPrice (price : Int) : List RpcCall × Option String :=
  if price < 0 ∨ price > 999 then
    ([], some ("Invalid power price: " ++ intStr price))
  else
    ([⟨"set_power_price", [.int price]⟩], none)

/-! ## `mirobo/airpurifier.py` -/

/-- The property names `AirPurifier.status` requests (lines 12–16). -/
def apProperties : List String :=
  ["power", "aqi", "humidity", "temp_dec",
   "mode", "led", "led_b", "buzzer", "child_lock",
   "limit_hum", "trans_level", "bright",
   "favorite_level", "filter1_life", "act_det",
   "f1_hour_used", "use_time", "motor1_speed"]

/-- Subscripting the plain `dict(zip(properties, values))` built by
`AirPurifier.status` (line 22): a missing key raises `KeyError`. -/
def apStatusGet (values : List String) (k : String) : PyResult String :=
  match pyDictGet (apProperties.zip values) k with
  | some v => .ok v
  | none => .exn "KeyError"

/-- `AirPurifierStatus.aqi`: `self.data["aqi"]`. -/
def apAqi (values : List String) : PyResult String := apStatusGet values "aqi"

/-- `AirPurifier.set_mode` (lines 24–28): `self.send("set_mode", [mode])`. -/
def apSetMode (mode : String) : RpcCall := ⟨"set_mode", [.str mode]⟩

/-- `AirPurifier.set_buzzer` (lines 51–57): sends `"set_mode"` with
`['on']`/`['off']`. -/
def apSetBuzzer (buzzer : Bool) : RpcCall :=
  if buzzer then ⟨"set_mode", [.str "on"]⟩ else ⟨"set_mode", [.str "off"]⟩

/-! ## Specification-side definitions used by the theorems -/

/-- The nine placeholder markers of the template language, as the source
comment lists them. -/
def markerList : List String :=
  ["[po]", "[mo]", "[wi]", "[sw]", "[tt]", "[li]", "[tt1]", "[tt4]", "[tt7]"]

/-- `markerList` as character lists. -/
def markerData : List (List Char) := markerList.map String.data

/-- `p` occurs as a (contiguous) substring of `s`. -/
def strOccurs (p s : String) : Prop := ∃ a b, s.data = a ++ p.data ++ b

/-- Checks that every `'['` in `l` starts an occurrence of some marker drawn
from `M`.  This is the invariant that marker substitution maintains while
shrinking `M`; `imarkB [] l` says `l` is bracket-free. -/
def imarkB (M : List (List Char)) : List Char → Bool
  | [] => true
  | c :: cs => ((c != '[') || M.any fun m => m.isPrefixOf (c :: cs)) && imarkB M cs

/-! ## Infrastructure lemmas -/

theorem strExt {s t : String} (h : s.data = t.data) : s = t := by
  cases s; cases t; exact congrArg String.mk h

theorem pyReplaceF_nil (f : Nat) (p r : List Char) : pyReplaceF f [] p r = [] := by
  cases f <;> rfl

theorem isPrefixOf_ex {p l : List Char} (h : p.isPrefixOf l = true) :
    ∃ u, l = p ++ u := by
  obtain ⟨u, hu⟩ := List.isPrefixOf_iff_prefix.mp h
  exact ⟨u, hu.symm⟩

theorem isPrefixOf_intro (p u : List Char) : p.isPrefixOf (p ++ u) = true :=
  List.isPrefixOf_iff_prefix.mpr ⟨u, rfl⟩

theorem pyReplaceF_skip (p r tl : List Char) (hp : p = '[' :: tl) :
    ∀ (x : List Char) (f : Nat) (y : List Char), '[' ∉ x → (x ++ y).length ≤ f →
      pyReplaceF f (x ++ y) p r = x ++ pyReplaceF (f - x.length) y p r := by
  intro x
  induction x with
  | nil => intro f y _ _; simp
  | cons c x' ih =>
    intro f y hx hf
    match f with
    | 0 => simp at hf
    | f + 1 =>
      have hc : c ≠ '[' := fun he => hx (he ▸ List.mem_cons_self c x')
      have hx' : '[' ∉ x' := fun hm => hx (List.mem_cons_of_mem c hm)
      have hpre : p.isPrefixOf (c :: (x' ++ y)) = false := by
        subst hp
        simp [List.isPrefixOf, Ne.symm hc]
      show pyReplaceF (f + 1) (c :: (x' ++ y)) p r = _
      simp only [pyReplaceF, hpre, Bool.false_eq_true, if_false]
      have hf' : (x' ++ y).length ≤ f := by
        simp only [List.length_cons, List.length_append] at hf ⊢
        omega
      rw [ih f y hx' hf']
      simp [Nat.succ_sub_succ]

theorem strReplace_split (pre s p r : String) (tl : List Char)
    (hp : p.data = '[' :: tl) (hpre : '[' ∉ pre.data) :
    strReplace (pre ++ s) p r = pre ++ strReplace s p r := by
  apply strExt
  show pyReplace (pre ++ s).data p.data r.data = (pre ++ strReplace s p r).data
  rw [String.data_append, String.data_append]
  show pyReplaceF (pre.data ++ s.data).length (pre.data ++ s.data) p.data r.data =
    pre.data ++ pyReplace s.data p.data r.data
  rw [pyReplaceF_skip p.data r.data tl hp pre.data _ s.data hpre le_rfl]
  congr 1
  have : (pre.data ++ s.data).length - pre.data.length = s.data.length := by
    simp [List.length_append]
  rw [this]
  rfl

theorem imarkB_cons (M : List (List Char)) (c : Char) (cs : List Char) :
    imarkB M (c :: cs) =
      (((c != '[') || M.any fun m => m.isPrefixOf (c :: cs)) && imarkB M cs) := rfl

theorem imarkB_append_noLB (M : List (List Char)) :
    ∀ (x y : List Char), '[' ∉ x → imarkB M (x ++ y) = imarkB M y := by
  intro x
  induction x with
  | nil => intro y _; rfl
  | cons c x' ih =>
    intro y hx
    have hc : c ≠ '[' := fun he => hx (he ▸ List.mem_cons_self c x')
    have hx' : '[' ∉ x' := fun hm => hx (List.mem_cons_of_mem c hm)
    rw [List.cons_append, imarkB_cons, ih y hx']
    have : (c != '[') = true := bne_iff_ne.mpr hc
    simp [this]

theorem imarkB_drop (M : List (List Char)) :
    ∀ (k : Nat) (l : List Char), imarkB M l = true → imarkB M (l.drop k) = true := by
  intro k
  induction k with
  | zero => intro l h; exact h
  | succ k ih =>
    intro l h
    match l with
    | [] => exact h
    | c :: cs =>
      rw [List.drop_succ_cons]
      apply ih
      rw [imarkB_cons, Bool.and_eq_true] at h
      exact h.2

theorem imarkB_nil_no_bracket :
    ∀ (l : List Char), imarkB [] l = true → '[' ∉ l := by
  intro l
  induction l with
  | nil => intro _ h; exact (List.not_mem_nil _ h)
  | cons c cs ih =>
    intro h hm
    rw [imarkB_cons, Bool.and_eq_true] at h
    rcases List.mem_cons.mp hm with rfl | hm'
    · have := h.1
      simp at this
    · exact ih h.2 hm'

theorem pyReplaceF_imark (M : List (List Char)) (p r : List Char)
    (hM : ∀ m ∈ M, m.head? = some '[' ∧ '[' ∉ m.tail)
    (hp : p ∈ M) (hr : '[' ∉ r) :
    ∀ (f : Nat) (l : List Char), l.length ≤ f → imarkB M l = true →
      imarkB (M.filter fun m => m != p) (pyReplaceF f l p r) = true := by
  have mshape : ∀ m ∈ M, ∃ tl, m = '[' :: tl ∧ '[' ∉ tl := by
    intro m hm
    obtain ⟨h1, h2⟩ := hM m hm
    cases m with
    | nil => simp at h1
    | cons a as =>
      have ha : a = '[' := by simpa using h1
      subst ha
      exact ⟨as, rfl, by simpa using h2⟩
  obtain ⟨ptl, hpeq, _⟩ := mshape p hp
  intro f
  induction f with
  | zero =>
    intro l hl _
    have : l = [] := List.eq_nil_of_length_eq_zero (Nat.le_zero.mp hl)
    subst this
    rfl
  | succ f ih =>
    intro l hl h
    match l with
    | [] => rfl
    | c :: cs =>
      by_cases hpre : p.isPrefixOf (c :: cs) = true
      · show imarkB _ (if p.isPrefixOf (c :: cs) then
          r ++ pyReplaceF f ((c :: cs).drop p.length) p r
          else c :: pyReplaceF f cs p r) = true
        rw [if_pos hpre, imarkB_append_noLB _ r _ hr]
        apply ih
        · have hplen : 1 ≤ p.length := by rw [hpeq]; simp
          simp only [List.length_drop, List.length_cons]
          simp only [List.length_cons] at hl
          omega
        · exact imarkB_drop M p.length (c :: cs) h
      · show imarkB _ (if p.isPrefixOf (c :: cs) then
          r ++ pyReplaceF f ((c :: cs).drop p.length) p r
          else c :: pyReplaceF f cs p r) = true
        rw [if_neg hpre, imarkB_cons, Bool.and_eq_true]
        have hl' : cs.length ≤ f := by
          simp only [List.length_cons] at hl; omega
        rw [imarkB_cons, Bool.and_eq_true] at h
        refine ⟨?_, ih cs hl' h.2⟩
        by_cases hc : c = '['
        · subst hc
          have hany : (M.any fun m => m.isPrefixOf ('[' :: cs)) = true := by
            have := h.1
            simpa using this
          obtain ⟨m₀, hm₀M, hm₀pre⟩ := List.any_eq_true.mp hany
          have hm₀p : m₀ ≠ p := by
            intro he
            exact hpre (he ▸ hm₀pre)
          obtain ⟨tl₀, rfl, htl₀⟩ := mshape m₀ hm₀M
          obtain ⟨u, hu⟩ := isPrefixOf_ex hm₀pre
          have hcs : cs = tl₀ ++ u := by
            simpa using hu
          have hz : pyReplaceF f cs p r = tl₀ ++ pyReplaceF (f - tl₀.length) u p r := by
            rw [hcs]
            apply pyReplaceF_skip p r ptl hpeq tl₀ f u htl₀
            rw [← hcs]
            exact hl'
          rw [Bool.or_eq_true]
          right
          apply List.any_eq_true.mpr
          refine ⟨'[' :: tl₀, ?_, ?_⟩
          · exact List.mem_filter.mpr ⟨hm₀M, bne_iff_ne.mpr hm₀p⟩
          · rw [hz, ← List.cons_append]
            exact isPrefixOf_intro _ _
        · rw [Bool.or_eq_true]
          left
          exact bne_iff_ne.mpr hc

theorem strReplace_imark (M : List (List Char)) (s p r : String)
    (hM : ∀ m ∈ M, m.head? = some '[' ∧ '[' ∉ m.tail)
    (hp : p.data ∈ M) (hr : '[' ∉ r.data) (h : imarkB M s.data = true) :
    imarkB (M.filter fun m => m != p.data) (strReplace s p r).data = true :=
  pyReplaceF_imark M p.data r.data hM hp hr s.data.length s.data le_rfl h

theorem hexDigit_ne_bracket (n : Nat) (hn : n < 16) : hexDigit n ≠ '[' := by
  interval_cases n <;> decide

theorem natHexDigits_no_bracket :
    ∀ (f n : Nat), '[' ∉ natHexDigits f n := by
  intro f
  induction f with
  | zero => intro n hm; exact List.not_mem_nil _ hm
  | succ f ih =>
    intro n hm
    by_cases hn : n < 16
    · rw [natHexDigits, if_pos hn] at hm
      exact hexDigit_ne_bracket n hn (List.mem_singleton.mp hm).symm
    · rw [natHexDigits, if_neg hn] at hm
      rcases List.mem_append.mp hm with hm' | hm'
      · exact ih (n / 16) hm'
      · exact hexDigit_ne_bracket (n % 16) (Nat.mod_lt n (by omega))
          (List.mem_singleton.mp hm').symm

theorem intFormatX_no_bracket (i : Int) : '[' ∉ (intFormatX i).data := by
  unfold intFormatX
  by_cases hi : i < 0
  · rw [if_pos hi]
    intro hm
    rw [String.data_append] at hm
    rcases List.mem_append.mp hm with hm' | hm'
    · simp at hm'
    · exact natHexDigits_no_bracket _ _ hm'
  · rw [if_neg hi]
    exact natHexDigits_no_bracket _ _

theorem tempOffsetDigit_no_bracket (K t : Int) :
    '[' ∉ (tempOffsetDigit K t).data := intFormatX_no_bracket _

theorem powerValue_no_bracket (power : Power) :
    '[' ∉ (intStr power.value).data := by cases power <;> decide

theorem modeValue_no_bracket (mode : OperationMode) :
    '[' ∉ (intStr mode.value).data := by cases mode <;> decide

theorem fanValue_no_bracket (fan : FanSpeed) :
    '[' ∉ (intStr fan.value).data := by cases fan <;> decide

theorem swingValue_no_bracket (swing : SwingMode) :
    '[' ∉ (intStr swing.value).data := by cases swing <;> decide

theorem ledValue_no_bracket (led : Led) :
    '[' ∉ (led.value).data := by cases led <;> decide

theorem applySubstitutions_no_bracket (s : String) (power : Power)
    (mode : OperationMode) (t : Int) (fan : FanSpeed) (swing : SwingMode)
    (led : Led) (h : imarkB markerData s.data = true) :
    '[' ∉ (applySubstitutions s power mode t fan swing led).data := by
  have h1 := strReplace_imark markerData s "[po]" (intStr power.value)
    (by decide) (by decide) (powerValue_no_bracket power) h
  rw [show (markerData.filter fun m => m != "[po]".data) =
    ["[mo]".data, "[wi]".data, "[sw]".data, "[tt]".data, "[li]".data,
     "[tt1]".data, "[tt4]".data, "[tt7]".data] from by decide] at h1
  have h2 := strReplace_imark _ _ "[mo]" (intStr mode.value)
    (by decide) (by decide) (modeValue_no_bracket mode) h1
  rw [show (List.filter (fun m => m != "[mo]".data)
    ["[mo]".data, "[wi]".data, "[sw]".data, "[tt]".data, "[li]".data,
     "[tt1]".data, "[tt4]".data, "[tt7]".data]) =
    ["[wi]".data, "[sw]".data, "[tt]".data, "[li]".data,
     "[tt1]".data, "[tt4]".data, "[tt7]".data] from by decide] at h2
  have h3 := strReplace_imark _ _ "[wi]" (intStr fan.value)
    (by decide) (by decide) (fanValue_no_bracket fan) h2
  rw [show (List.filter (fun m => m != "[wi]".data)
    ["[wi]".data, "[sw]".data, "[tt]".data, "[li]".data,
     "[tt1]".data, "[tt4]".data, "[tt7]".data]) =
    ["[sw]".data, "[tt]".data, "[li]".data,
     "[tt1]".data, "[tt4]".data, "[tt7]".data] from by decide] at h3
  have h4 := strReplace_imark _ _ "[sw]" (intStr swing.value)
    (by decide) (by decide) (swingValue_no_bracket swing) h3
  rw [show (List.filter (fun m => m != "[sw]".data)
    ["[sw]".data, "[tt]".data, "[li]".data,
     "[tt1]".data, "[tt4]".data, "[tt7]".data]) =
    ["[tt]".data, "[li]".data, "[tt1]".data, "[tt4]".data, "[tt7]".data]
    from by decide] at h4
  have h5 := strReplace_imark _ _ "[tt]" (intFormatX t)
    (by decide) (by decide) (intFormatX_no_bracket t) h4
  rw [show (List.filter (fun m => m != "[tt]".data)
    ["[tt]".data, "[li]".data, "[tt1]".data, "[tt4]".data, "[tt7]".data]) =
    ["[li]".data, "[tt1]".data, "[tt4]".data, "[tt7]".data]
    from by decide] at h5
  have h6 := strReplace_imark _ _ "[li]" led.value
    (by decide) (by decide) (ledValue_no_bracket led) h5
  rw [show (List.filter (fun m => m != "[li]".data)
    ["[li]".data, "[tt1]".data, "[tt4]".data, "[tt7]".data]) =
    ["[tt1]".data, "[tt4]".data, "[tt7]".data] from by decide] at h6
  have h7 := strReplace_imark _ _ "[tt1]" (tempOffsetDigit 1 t)
    (by decide) (by decide) (tempOffsetDigit_no_bracket 1 t) h6
  rw [show (List.filter (fun m => m != "[tt1]".data)
    ["[tt1]".data, "[tt4]".data, "[tt7]".data]) =
    ["[tt4]".data, "[tt7]".data] from by decide] at h7
  have h8 := strReplace_imark _ _ "[tt4]" (tempOffsetDigit 4 t)
    (by decide) (by decide) (tempOffsetDigit_no_bracket 4 t) h7
  rw [show (List.filter (fun m => m != "[tt4]".data)
    ["[tt4]".data, "[tt7]".data]) = ["[tt7]".data] from by decide] at h8
  have h9 := strReplace_imark _ _ "[tt7]" (tempOffsetDigit 7 t)
    (by decide) (by decide) (tempOffsetDigit_no_bracket 7 t) h8
  rw [show (List.filter (fun m => m != "[tt7]".data) ["[tt7]".data]) =
    ([] : List (List Char)) from by decide] at h9
  exact imarkB_nil_no_bracket _ h9

theorem applySubstitutions_split (pre s : String) (hpre : '[' ∉ pre.data)
    (power : Power) (mode : OperationMode) (t : Int) (fan : FanSpeed)
    (swing : SwingMode) (led : Led) :
    applySubstitutions (pre ++ s) power mode t fan swing led =
      pre ++ applySubstitutions s power mode t fan swing led := by
  simp only [applySubstitutions]
  rw [strReplace_split pre _ "[po]" _ _ rfl hpre,
      strReplace_split pre _ "[mo]" _ _ rfl hpre,
      strReplace_split pre _ "[wi]" _ _ rfl hpre,
      strReplace_split pre _ "[sw]" _ _ rfl hpre,
      strReplace_split pre _ "[tt]" _ _ rfl hpre,
      strReplace_split pre _ "[li]" _ _ rfl hpre,
      strReplace_split pre _ "[tt1]" _ _ rfl hpre,
      strReplace_split pre _ "[tt4]" _ _ rfl hpre,
      strReplace_split pre _ "[tt7]" _ _ rfl hpre]

theorem pyDictGet_mem {α : Type} :
    ∀ (pairs : List (String × α)) (k : String) (v : α),
      pyDictGet pairs k = some v → (k, v) ∈ pairs := by
  intro pairs
  induction pairs with
  | nil => intro k v h; simp [pyDictGet] at h
  | cons kv rest ih =>
    intro k v h
    rw [pyDictGet] at h
    rcases hrest : pyDictGet rest k with _ | v'
    · rw [hrest] at h
      by_cases hk : k = kv.1
      · rw [if_pos hk] at h
        have : v = kv.2 := by injection h with h'; exact h'.symm
        subst this; subst hk
        exact List.mem_cons_self _ _
      · rw [if_neg hk] at h
        exact absurd h (by simp)
    · rw [hrest] at h
      injection h with h'
      subst h'
      exact List.mem_cons_of_mem _ (ih k _ hrest)

theorem baseFor_imark (pfx : String) :
    imarkB markerData (baseFor pfx).data = true := by
  unfold baseFor
  rcases he : pyDictGet DEVICE_COMMAND_TEMPLATES pfx with _ | e
  · decide
  · have hmem := pyDictGet_mem DEVICE_COMMAND_TEMPLATES pfx e he
    simp only [DEVICE_COMMAND_TEMPLATES, List.mem_cons, List.not_mem_nil,
      or_false] at hmem
    rcases hmem with h | h | h | h | h | h <;>
      · have : e = (Prod.mk pfx e).2 := rfl
        rw [this, h]
        decide

theorem pyDictGet_zip_not_mem :
    ∀ (ns : List String) (vs : List String) (k : String), k ∉ ns →
      pyDictGet (ns.zip vs) k = none := by
  intro ns
  induction ns with
  | nil => intro vs k _; rfl
  | cons n₀ ns ih =>
    intro vs k hk
    match vs with
    | [] => rfl
    | v₀ :: vs =>
      have hk₀ : k ≠ n₀ := fun he => hk (he ▸ List.mem_cons_self n₀ ns)
      have hk' : k ∉ ns := fun hm => hk (List.mem_cons_of_mem n₀ hm)
      show pyDictGet ((n₀, v₀) :: ns.zip vs) k = none
      rw [pyDictGet, ih vs k hk', if_neg hk₀]

theorem pyDictGet_zip_get :
    ∀ (ns : List String) (vs : List String) (i : Nat) (hn : ns.Nodup)
      (hi : i < ns.length) (hv : i < vs.length),
      pyDictGet (ns.zip vs) (ns.get ⟨i, hi⟩) = some (vs.get ⟨i, hv⟩) := by
  intro ns
  induction ns with
  | nil => intro vs i _ hi _; simp at hi
  | cons n₀ ns ih =>
    intro vs i hn hi hv
    match vs with
    | [] => simp at hv
    | v₀ :: vs =>
      match i with
      | 0 =>
        have hnot : n₀ ∉ ns := (List.nodup_cons.mp hn).1
        show pyDictGet ((n₀, v₀) :: ns.zip vs) n₀ = some v₀
        rw [pyDictGet, pyDictGet_zip_not_mem ns vs n₀ hnot]
        simp
      | i + 1 =>
        have hn' : ns.Nodup := (List.nodup_cons.mp hn).2
        have hi' : i < ns.length := by simpa using hi
        have hv' : i < vs.length := by simpa using hv
        show pyDictGet ((n₀, v₀) :: ns.zip vs) (ns.get ⟨i, hi'⟩) =
          some (vs.get ⟨i, hv'⟩)
        rw [pyDictGet, ih vs i hn' hi' hv']

theorem pyDictGet_zip_surplus :
    ∀ (ns : List String) (vs : List String) (i : Nat) (hn : ns.Nodup)
      (hi : i < ns.length), vs.length ≤ i →
      pyDictGet (ns.zip vs) (ns.get ⟨i, hi⟩) = none := by
  intro ns
  induction ns with
  | nil => intro vs i _ hi _; simp at hi
  | cons n₀ ns ih =>
    intro vs i hn hi hlen
    match vs with
    | [] => rfl
    | v₀ :: vs =>
      match i with
      | 0 => simp at hlen
      | i + 1 =>
        have hn' : ns.Nodup := (List.nodup_cons.mp hn).2
        have hi' : i < ns.length := by simpa using hi
        have hlen' : vs.length ≤ i := by simpa using hlen
        have hmem : ns.get ⟨i, hi'⟩ ∈ ns := ns.get_mem _ _
        have hne : ns.get ⟨i, hi'⟩ ≠ n₀ := by
          intro he
          exact (List.nodup_cons.mp hn).1 (he ▸ hmem)
        show pyDictGet ((n₀, v₀) :: ns.zip vs) (ns.get ⟨i, hi'⟩) = none
        rw [pyDictGet, ih vs i hn' hi' hlen', if_neg hne]

theorem sendConfiguration_eq (model : String) (power : Power)
    (mode : OperationMode) (t : Int) (fan : FanSpeed) (swing : SwingMode)
    (led : Led) :
    sendConfiguration model power mode t fan swing led =
      match (if power = Power.Off
             then (pyDictGet DEVICE_COMMAND_TEMPLATES
                     (derivedPfx model)).bind Template.off
             else none) with
      | some offCmd => derivedPfx model ++ offCmd
      | none =>
        applySubstitutions (derivedPfx model ++ baseFor (derivedPfx model))
          power mode t fan swing led ++ modelSuffix model := rfl

/-! ## Claim theorems -/

/-- C3: for every integer target temperature `t` and `K ∈ {1, 4, 7}`, the
temperature-offset marker value is the single uppercase hexadecimal digit of
`(K + t - 17) mod 16`, where the mathematical modulus lands in `[0, 15]`
even for negative arguments; in particular `t = 17` gives `'1'`, `'4'`,
`'7'` and `t = 0` gives `'0'` for offset-1. -/
theorem spec_C3_tempOffset (t K : Int) (hK : K ∈ ([1, 4, 7] : List Int)) :
    (0 ≤ (K + t - 17) % 16 ∧ (K + t - 17) % 16 < 16 ∧
      (tempOffsetDigit K t).data = [hexDigit ((K + t - 17) % 16).toNat]) ∧
    tempOffsetDigit 1 17 = "1" ∧ tempOffsetDigit 4 17 = "4" ∧
    tempOffsetDigit 7 17 = "7" ∧ tempOffsetDigit 1 0 = "0" := by
  have h0 : (0 : Int) ≤ (K + t - 17) % 16 := Int.emod_nonneg _ (by norm_num)
  have h1 : (K + t - 17) % 16 < 16 := Int.emod_lt_of_pos _ (by norm_num)
  refine ⟨⟨h0, h1, ?_⟩, by decide, by decide, by decide, by decide⟩
  unfold tempOffsetDigit intFormatX
  rw [if_neg (by omega)]
  show natHexDigits (((K + t - 17) % 16).toNat + 1) ((K + t - 17) % 16).toNat = _
  have hlt : ((K + t - 17) % 16).toNat < 16 := by omega
  rw [natHexDigits, if_pos hlt]

/-- C3 witness: the theorem applied at `t = 0`, `K = 1`. -/
theorem spec_C3_tempOffset_witness :
    (1 : Int) ∈ ([1, 4, 7] : List Int) ∧
    ((0 ≤ (1 + 0 - 17 : Int) % 16 ∧ (1 + 0 - 17 : Int) % 16 < 16 ∧
      (tempOffsetDigit 1 0).data = [hexDigit ((1 + 0 - 17 : Int) % 16).toNat]) ∧
     tempOffsetDigit 1 17 = "1" ∧ tempOffsetDigit 4 17 = "4" ∧
     tempOffsetDigit 7 17 = "7" ∧ tempOffsetDigit 1 0 = "0") :=
  ⟨by decide, spec_C3_tempOffset 0 1 (by decide)⟩

/-- C6: the status record shown in the source docstring carries the LED On
wire character `'0'` at offset 8 of element `[1]`, yet the `led` accessor
answers `'off'`; indeed the accessor can only ever raise or answer `'off'`,
because it compares the parsed `int` with the *string* `Led.On.value` and
Python cross-type `==` is constantly false.  This contradicts the claim that
`led` is `'on'` exactly when the digit equals the LED On wire value. -/
theorem spec_C6_led_always_off :
    pySlice "010201190280222221" 8 9 = Led.On.value ∧
    acLed (some "010201190280222221") = .ok "off" ∧
    ∀ d1 : Option String, acLed d1 = .exn "TypeError" ∨
      acLed d1 = .exn "ValueError" ∨ acLed d1 = .ok "off" := by
  refine ⟨by decide, by decide, ?_⟩
  intro d1
  match d1 with
  | none => exact Or.inl rfl
  | some s =>
    right
    have he : acLed (some s) = match pyIntDec (pySlice s 8 9) with
      | none => .exn "ValueError"
      | some n =>
        .ok (if pyEq (.int n) (.str Led.On.value) then "on" else "off") := rfl
    rcases hp : pyIntDec (pySlice s 8 9) with _ | n
    · left
      rw [he, hp]
    · right
      rw [he, hp]
      rfl

/-- C9: `set_power_price` rejects exactly the prices outside `[0, 999]`,
synchronously and with a message naming the offending value, performing no
RPC call in that case; any price in range performs exactly the
`set_power_price` RPC with that price and raises nothing. -/
theorem spec_C9_set_power_price (price : Int) :
    ((setPowerPrice price).2.isSome = true ↔ price < 0 ∨ price > 999) ∧
    (price < 0 ∨ price > 999 →
      setPowerPrice price = ([], some ("Invalid power price: " ++ intStr price))) ∧
    (0 ≤ price → price ≤ 999 →
      setPowerPrice price = ([⟨"set_power_price", [.int price]⟩], none)) := by
  by_cases h : price < 0 ∨ price > 999
  · have he : setPowerPrice price =
        ([], some ("Invalid power price: " ++ intStr price)) := by
      unfold setPowerPrice
      rw [if_pos h]
    refine ⟨?_, fun _ => he, fun h0 h999 => absurd h (by omega)⟩
    rw [he]
    exact iff_of_true rfl h
  · have he : setPowerPrice price =
        ([⟨"set_power_price", [.int price]⟩], none) := by
      unfold setPowerPrice
      rw [if_neg h]
    refine ⟨?_, fun hc => absurd hc h, fun _ _ => he⟩
    rw [he]
    exact iff_of_false (by simp) h

/-- C9 witness: the theorem applied at the out-of-range price 1000 and the
in-range price 500. -/
theorem spec_C9_set_power_price_witness :
    setPowerPrice 1000 = ([], some ("Invalid power price: " ++ intStr 1000)) ∧
    setPowerPrice 500 = ([⟨"set_power_price", [.int 500]⟩], none) :=
  ⟨(spec_C9_set_power_price 1000).2.1 (Or.inr (by norm_num)),
   (spec_C9_set_power_price 500).2.2 (by norm_num) (by norm_num)⟩

/-- C1: encoding the configuration {power=On, mode=Cool, fan=Auto, swing=Off,
temperature=24, led=On} against a model whose derived prefix is not a
registry key uses the fallback base `[po][mo][wi][sw][tt][li]` and yields
exactly `prefix + "1" + "1" + "3" + "1" + "18" + led_on_char + suffix`,
where `"18"` is uppercase hex of 24 and the LED On wire character is `'0'`.
(Model identifiers are hexadecimal digit strings, so the derived prefix
contains no `'['`; the second hypothesis records that.) -/
theorem spec_C1_fallback_roundtrip (model : String)
    (hreg : pyDictGet DEVICE_COMMAND_TEMPLATES (derivedPfx model) = none)
    (hbr : '[' ∉ (derivedPfx model).data) :
    sendConfiguration model .On .Cool 24 .Auto .Off .On =
      derivedPfx model ++ "1" ++ "1" ++ "3" ++ "1" ++ "18" ++ Led.On.value ++
        modelSuffix model := by
  have hb : baseFor (derivedPfx model) = fallbackTemplate.base := by
    unfold baseFor
    rw [hreg]
  rw [sendConfiguration_eq]
  show applySubstitutions (derivedPfx model ++ baseFor (derivedPfx model))
    .On .Cool 24 .Auto .Off .On ++ modelSuffix model = _
  rw [hb, applySubstitutions_split _ _ hbr]
  rw [show applySubstitutions fallbackTemplate.base .On .Cool 24 .Auto .Off .On
    = "1131180" from by decide]
  apply strExt
  simp only [String.data_append, List.append_assoc]
  rfl

/-- C1 witness: the theorem applied to the unregistered model
`"0180111111"` (derived prefix `"0111"`, suffix `"1"`). -/
theorem spec_C1_fallback_roundtrip_witness :
    pyDictGet DEVICE_COMMAND_TEMPLATES (derivedPfx "0180111111") = none ∧
    '[' ∉ (derivedPfx "0180111111").data ∧
    sendConfiguration "0180111111" .On .Cool 24 .Auto .Off .On =
      derivedPfx "0180111111" ++ "1" ++ "1" ++ "3" ++ "1" ++ "18" ++
        Led.On.value ++ modelSuffix "0180111111" :=
  ⟨by decide, by decide,
   spec_C1_fallback_roundtrip "0180111111" (by decide) (by decide)⟩

/-- C2: whenever the derived prefix has its own registry entry with an
`'off'` field and power is Off, the command is exactly `prefix + off` — no
substitution, no suffix — independently of every other configuration field;
a registered entry without `'off'` and an unregistered prefix both go
through full substitution, and the fallback entry itself has no `'off'`
field. -/
theorem spec_C2_off_shortcut (model : String) (mode mode' : OperationMode)
    (t t' : Int) (fan fan' : FanSpeed) (swing swing' : SwingMode)
    (led led' : Led) :
    (∀ e offCmd,
       pyDictGet DEVICE_COMMAND_TEMPLATES (derivedPfx model) = some e →
       e.off = some offCmd →
       sendConfiguration model .Off mode t fan swing led =
         derivedPfx model ++ offCmd ∧
       sendConfiguration model .Off mode t fan swing led =
         sendConfiguration model .Off mode' t' fan' swing' led') ∧
    (∀ e, pyDictGet DEVICE_COMMAND_TEMPLATES (derivedPfx model) = some e →
       e.off = none →
       sendConfiguration model .Off mode t fan swing led =
         applySubstitutions (derivedPfx model ++ e.base) .Off mode t fan
           swing led ++ modelSuffix model) ∧
    (pyDictGet DEVICE_COMMAND_TEMPLATES (derivedPfx model) = none →
       sendConfiguration model .Off mode t fan swing led =
         applySubstitutions (derivedPfx model ++ fallbackTemplate.base) .Off
           mode t fan swing led ++ modelSuffix model) ∧
    fallbackTemplate.off = none := by
  refine ⟨?_, ?_, ?_, rfl⟩
  · intro e offCmd he hoff
    have key : ∀ (m : OperationMode) (tt : Int) (f : FanSpeed) (sw : SwingMode)
        (l : Led), sendConfiguration model .Off m tt f sw l =
          derivedPfx model ++ offCmd := by
      intro m tt f sw l
      rw [sendConfiguration_eq, if_pos rfl, he,
        show (some e).bind Template.off = e.off from rfl, hoff]
    exact ⟨key mode t fan swing led,
      (key mode t fan swing led).trans (key mode' t' fan' swing' led').symm⟩
  · intro e he hoff
    rw [sendConfiguration_eq, if_pos rfl, he,
      show (some e).bind Template.off = e.off from rfl, hoff]
    show applySubstitutions (derivedPfx model ++ baseFor (derivedPfx model))
      .Off mode t fan swing led ++ modelSuffix model = _
    have hb : baseFor (derivedPfx model) = e.base := by
      unfold baseFor
      rw [he]
    rw [hb]
  · intro hreg
    rw [sendConfiguration_eq, if_pos rfl, hreg]
    show applySubstitutions (derivedPfx model ++ baseFor (derivedPfx model))
      .Off mode t fan swing led ++ modelSuffix model = _
    have hb : baseFor (derivedPfx model) = fallbackTemplate.base := by
      unfold baseFor
      rw [hreg]
    rw [hb]

/-- C2 witness: the theorem applied to a model with the gree_2 prefix
`"0100010727"` (the only entry with an `'off'` field), at two different
configurations. -/
theorem spec_C2_off_shortcut_witness :
    sendConfiguration "01xxxxxx000107271" .Off .Cool 25 .Auto .On .Off =
      derivedPfx "01xxxxxx000107271" ++
        "01011101004000205002112000D04000207002000000A0" ∧
    sendConfiguration "01xxxxxx000107271" .Off .Cool 25 .Auto .On .Off =
      sendConfiguration "01xxxxxx000107271" .Off .Heat 13 .Low .Off .On :=
  (spec_C2_off_shortcut "01xxxxxx000107271" .Cool .Heat 25 13 .Auto .Low .On
      .Off .Off .On).1
    ⟨"gree_2",
     "[po][mo][wi][sw][tt]1100190[tt1]205002102000[tt7]0190[tt1]207002000000[tt4]",
     some "01011101004000205002112000D04000207002000000A0"⟩
    "01011101004000205002112000D04000207002000000A0" (by decide) (by decide)

/-- C8: when the derived prefix (`model[0:2] + model[8:16]`) is not a
registry key, `send_configuration` silently builds its command from the
fallback template's base for every configuration; the embedded encoder is a
total function, so no error is raised for any prefix. -/
theorem spec_C8_fallback_lookup (model : String) (power : Power)
    (mode : OperationMode) (t : Int) (fan : FanSpeed) (swing : SwingMode)
    (led : Led)
    (hreg : pyDictGet DEVICE_COMMAND_TEMPLATES (derivedPfx model) = none) :
    sendConfiguration model power mode t fan swing led =
      applySubstitutions (derivedPfx model ++ fallbackTemplate.base)
        power mode t fan swing led ++ modelSuffix model := by
  have hb : baseFor (derivedPfx model) = fallbackTemplate.base := by
    unfold baseFor
    rw [hreg]
  have hnone : (if power = Power.Off
      then (pyDictGet DEVICE_COMMAND_TEMPLATES
              (derivedPfx model)).bind Template.off
      else none) = none := by
    cases power
    · rfl
    · rw [if_pos rfl, hreg]
      rfl
  rw [sendConfiguration_eq, hnone]
  show applySubstitutions (derivedPfx model ++ baseFor (derivedPfx model))
    power mode t fan swing led ++ modelSuffix model = _
  rw [hb]

/-- C8 witness: the theorem applied to the unregistered model
`"0180111111"`, with power Off (so the off shortcut is also shown not to
fire through the fallback). -/
theorem spec_C8_fallback_lookup_witness :
    pyDictGet DEVICE_COMMAND_TEMPLATES (derivedPfx "0180111111") = none ∧
    sendConfiguration "0180111111" .Off .Heat 5 .Low .On .Off =
      applySubstitutions (derivedPfx "0180111111" ++ fallbackTemplate.base)
        .Off .Heat 5 .Low .On .Off ++ modelSuffix "0180111111" :=
  ⟨by decide,
   spec_C8_fallback_lookup "0180111111" .Off .Heat 5 .Low .On .Off (by decide)⟩

/-- C4 counterexample: for the record element `[1] = "ab"` every fixed
substring is unparsable, and all six accessors raise `ValueError` instead of
returning the unavailable value `None` — refuting the claim that a parse
failure degrades to `None`. -/
theorem spec_C4_counterexample :
    acPower (some "ab") = .exn "ValueError" ∧
    acIsOn (some "ab") = .exn "ValueError" ∧
    acMode (some "ab") = .exn "ValueError" ∧
    acFanSpeed (some "ab") = .exn "ValueError" ∧
    acSwingMode (some "ab") = .exn "ValueError" ∧
    acTargetTemperature (some "ab") = .exn "ValueError" := by decide

/-- C4 amended: the `try/except TypeError` accessors (`mode`, `fan_speed`,
`swing_mode`, `target_temperature`) return `None` only when element `[1]`
itself is missing (`None`, whose subscripting raises the caught
`TypeError`); when the element is a string whose fixed substring does not
parse, they raise `ValueError`, and `power`/`is_on` (which have no
`try` at all) raise in both situations.  Each accessor is an independent
function of the record, so one field's failure leaves the others
untouched. -/
theorem spec_C4_decoder_errors (s : String)
    (h23 : pyIntDec (pySlice s 2 3) = none)
    (h34 : pyIntDec (pySlice s 3 4) = none)
    (h45 : pyIntDec (pySlice s 4 5) = none)
    (h56 : pyIntDec (pySlice s 5 6) = none)
    (h68 : pyIntHex (pySlice s 6 8) = none) :
    (acMode none = .ok none ∧ acFanSpeed none = .ok none ∧
     acSwingMode none = .ok none ∧ acTargetTemperature none = .ok none) ∧
    (acPower none = .exn "TypeError" ∧ acIsOn none = .exn "TypeError" ∧
     acLed none = .exn "TypeError") ∧
    (acPower (some s) = .exn "ValueError" ∧
     acIsOn (some s) = .exn "ValueError" ∧
     acMode (some s) = .exn "ValueError" ∧
     acFanSpeed (some s) = .exn "ValueError" ∧
     acSwingMode (some s) = .exn "ValueError" ∧
     acTargetTemperature (some s) = .exn "ValueError") := by
  refine ⟨⟨rfl, rfl, rfl, rfl⟩, ⟨rfl, rfl, rfl⟩, ?_, ?_, ?_, ?_, ?_, ?_⟩
  · have he : acPower (some s) = match pyIntDec (pySlice s 2 3) with
      | none => .exn "ValueError"
      | some n =>
        .ok (if pyEq (.int n) (.int Power.On.value) then "on" else "off") := rfl
    rw [he, h23]
  · have he : acPower (some s) = match pyIntDec (pySlice s 2 3) with
      | none => .exn "ValueError"
      | some n =>
        .ok (if pyEq (.int n) (.int Power.On.value) then "on" else "off") := rfl
    have hi : acIsOn (some s) = match acPower (some s) with
      | .ok p => .ok (p == "on")
      | .exn e => .exn e := rfl
    rw [hi, he, h23]
  · have he : acMode (some s) = match pyIntDec (pySlice s 3 4) with
      | none => .exn "ValueError"
      | some n => match OperationMode.fromValue n with
        | none => .exn "ValueError"
        | some m => .ok (some m) := rfl
    rw [he, h34]
  · have he : acFanSpeed (some s) = match pyIntDec (pySlice s 4 5) with
      | none => .exn "ValueError"
      | some n => match FanSpeed.fromValue n with
        | none => .exn "ValueError"
        | some m => .ok (some m) := rfl
    rw [he, h45]
  · have he : acSwingMode (some s) = match pyIntDec (pySlice s 5 6) with
      | none => .exn "ValueError"
      | some n => match SwingMode.fromValue n with
        | none => .exn "ValueError"
        | some m => .ok (some m) := rfl
    rw [he, h56]
  · have he : acTargetTemperature (some s) = match pyIntHex (pySlice s 6 8) with
      | none => .exn "ValueError"
      | some n => .ok (some n) := rfl
    rw [he, h68]

/-- C4 witness: the amended theorem applied to the short record element
`"ab"`, whose every fixed substring fails to parse. -/
theorem spec_C4_decoder_errors_witness :
    (pyIntDec (pySlice "ab" 2 3) = none ∧ pyIntDec (pySlice "ab" 3 4) = none ∧
     pyIntDec (pySlice "ab" 4 5) = none ∧ pyIntDec (pySlice "ab" 5 6) = none ∧
     pyIntHex (pySlice "ab" 6 8) = none) ∧
    ((acMode none = .ok none ∧ acFanSpeed none = .ok none ∧
      acSwingMode none = .ok none ∧ acTargetTemperature none = .ok none) ∧
     (acPower none = .exn "TypeError" ∧ acIsOn none = .exn "TypeError" ∧
      acLed none = .exn "TypeError") ∧
     (acPower (some "ab") = .exn "ValueError" ∧
      acIsOn (some "ab") = .exn "ValueError" ∧
      acMode (some "ab") = .exn "ValueError" ∧
      acFanSpeed (some "ab") = .exn "ValueError" ∧
      acSwingMode (some "ab") = .exn "ValueError" ∧
      acTargetTemperature (some "ab") = .exn "ValueError")) :=
  ⟨⟨by decide, by decide, by decide, by decide, by decide⟩,
   spec_C4_decoder_errors "ab" (by decide) (by decide) (by decide) (by decide)
     (by decide)⟩

/-- C5 counterexample: the air-purifier query builds a *plain* dict, so with
returned values `["on"]` the surplus name `"aqi"` has no key and its
accessor raises `KeyError` instead of returning the unavailable value —
refuting the claim for that property-list decoder (the power-strip one
behaves as claimed). -/
theorem spec_C5_counterexample :
    pyDictGet (apProperties.zip ["on"]) "aqi" = none ∧
    apAqi ["on"] = .exn "KeyError" ∧
    apStatusGet ["on"] "power" = .ok "on" := by decide

/-- C5 amended: names are paired with returned values positionally up to the
shorter length.  In the power strip's defaultdict-based decoder a paired
name looks up to its value and a surplus name to `None` without raising
(e.g. values `["on"]` give `power = "on"` and `temperature` unavailable);
in the air purifier's plain-dict decoder a surplus name raises
`KeyError`. -/
theorem spec_C5_shorter_values (names : List String) (values : List String)
    (hn : names.Nodup) (i : Nat) (hi : i < names.length) :
    (∀ hv : i < values.length,
       pyDictGet (names.zip values) (names.get ⟨i, hi⟩) =
         some (values.get ⟨i, hv⟩)) ∧
    (values.length ≤ i →
       pyDictGet (names.zip values) (names.get ⟨i, hi⟩) = none) ∧
    (∀ (vs : List String) (k : String),
       pyDictGet (apProperties.zip vs) k = none →
       apStatusGet vs k = .exn "KeyError") ∧
    psPower ["on"] = some "on" ∧ psTemperature ["on"] = none := by
  refine ⟨fun hv => pyDictGet_zip_get names values i hn hi hv,
          fun hle => pyDictGet_zip_surplus names values i hn hi hle,
          ?_, by decide, by decide⟩
  intro vs k hk
  unfold apStatusGet
  rw [hk]

/-- C5 witness: the amended theorem applied to the power strip's own
property list with the single returned value `["on"]` at index 1
(`"temperature"`, a surplus name). -/
theorem spec_C5_shorter_values_witness :
    psProperties.Nodup ∧
    ((∀ hv : (1 : Nat) < ([("on" : String)] : List String).length,
        pyDictGet (psProperties.zip ["on"])
          (psProperties.get ⟨1, by decide⟩) =
          some (([("on" : String)] : List String).get ⟨1, hv⟩)) ∧
     (([("on" : String)] : List String).length ≤ 1 →
        pyDictGet (psProperties.zip ["on"])
          (psProperties.get ⟨1, by decide⟩) = none) ∧
     (∀ (vs : List String) (k : String),
        pyDictGet (apProperties.zip vs) k = none →
        apStatusGet vs k = .exn "KeyError") ∧
     psPower ["on"] = some "on" ∧ psTemperature ["on"] = none) :=
  ⟨by decide, spec_C5_shorter_values psProperties ["on"] (by decide) 1 (by decide)⟩

/-- C7: for every registry entry (a registered prefix's entry or the
fallback) and every configuration that does not take the off shortcut, the
command decomposes as prefix ++ substituted-base ++ suffix, and the
substituted base — the command with prefix and suffix stripped — contains no
occurrence of any of the nine markers: every occurrence (including the
repeated `[tt1]` of the gree_2 base) is replaced and no substitution
corrupts a longer marker.  (Model identifiers are hexadecimal digit strings,
so the derived prefix contains no `'['`.) -/
theorem spec_C7_all_markers_replaced (model : String) (power : Power)
    (mode : OperationMode) (t : Int) (fan : FanSpeed) (swing : SwingMode)
    (led : Led) (hbr : '[' ∉ (derivedPfx model).data)
    (hns : (if power = Power.Off
            then (pyDictGet DEVICE_COMMAND_TEMPLATES
                    (derivedPfx model)).bind Template.off
            else none) = none) :
    sendConfiguration model power mode t fan swing led =
      derivedPfx model ++
        applySubstitutions (baseFor (derivedPfx model)) power mode t fan
          swing led ++ modelSuffix model ∧
    ∀ m ∈ markerList,
      ¬ strOccurs m (applySubstitutions (baseFor (derivedPfx model)) power
          mode t fan swing led) := by
  constructor
  · rw [sendConfiguration_eq, hns]
    show applySubstitutions (derivedPfx model ++ baseFor (derivedPfx model))
      power mode t fan swing led ++ modelSuffix model = _
    rw [applySubstitutions_split _ _ hbr]
  · intro m hm hocc
    obtain ⟨a, b, hab⟩ := hocc
    have hnb : '[' ∉ (applySubstitutions (baseFor (derivedPfx model)) power
        mode t fan swing led).data :=
      applySubstitutions_no_bracket _ _ _ _ _ _ _ (baseFor_imark _)
    have hbrm : '[' ∈ m.data := by
      fin_cases hm <;> decide
    exact hnb (hab ▸ List.mem_append.mpr
      (Or.inl (List.mem_append.mpr (Or.inr hbrm))))

/-- C7 witness: the theorem applied to the unregistered model
`"0180111111"` with power On (shortcut not taken). -/
theorem spec_C7_all_markers_replaced_witness :
    '[' ∉ (derivedPfx "0180111111").data ∧
    (sendConfiguration "0180111111" .On .Cool 24 .Auto .Off .On =
       derivedPfx "0180111111" ++
         applySubstitutions (baseFor (derivedPfx "0180111111")) .On .Cool 24
           .Auto .Off .On ++ modelSuffix "0180111111" ∧
     ∀ m ∈ markerList,
       ¬ strOccurs m (applySubstitutions (baseFor (derivedPfx "0180111111"))
           .On .Cool 24 .Auto .Off .On)) :=
  ⟨by decide,
   spec_C7_all_markers_replaced "0180111111" .On .Cool 24 .Auto .Off .On
     (by decide) rfl⟩

/-- C10: `AirPurifier.set_buzzer` issues the RPC method `"set_mode"` — the
same method name `AirPurifier.set_mode` uses — with parameter `['on']` for
`True` and `['off']` for `False`; no buzzer-specific method exists in its
body. -/
theorem spec_C10_set_buzzer (b : Bool) (m : String) :
    apSetBuzzer b = ⟨"set_mode", [.str (if b then "on" else "off")]⟩ ∧
    (apSetBuzzer b).method = (apSetMode m).method ∧
    (apSetMode m).method = "set_mode" := by
  cases b <;> exact ⟨rfl, rfl, rfl⟩

end Miio
